import Mathlib

/-!
Verification development for the ai-proxy translation core.

The definitions below are a shallow embedding, in Lean, of the Python code of
the repository: the provider registry (`provider_registry.py`), the dynamic
provider loader (`dynamic_provider_loader.py`), the request validators
(`validation/validators.py`), the command-alias manager
(`config/command_alias_manager.py`), the base provider and the Grok adapters
(`providers/base.py`, `providers/grok_openai.py`), and the request
orchestrator (`app.py`).  Python dictionaries are modelled as association
lists with first-occurrence lookup and in-place update, JSON values as an
inductive type whose numbers are exact decimals (an integer mantissa over a
power of ten), byte strings as lists of naturals below 256, and fallible code
as `Except`/`Option`.  String operations (`lower`, single-character
`replace`, substring membership) are modelled character-wise; `lower` is the
ASCII lowering, which agrees with Python on every string appearing in the
code and the claims.
-/

/-- ASCII lower-casing of one character; model of Python `str.lower` per
character (agrees with Python on ASCII input). -/
def chLower (c : Char) : Char :=
  if 'A' ≤ c ∧ c ≤ 'Z' then Char.ofNat (c.toNat + 32) else c

/-- Model of Python `s.lower()` (ASCII scope). -/
def pyLower (s : String) : String := String.mk (s.data.map chLower)

/-- Model of Python `s.replace(old, new)` for single-character `old` and
`new`, the only form the repository uses. -/
def pyReplaceChar (s : String) (old new : Char) : String :=
  String.mk (s.data.map (fun c => if c = old then new else c))

/-- Substring test on character lists: does `needle` occur contiguously in
`hay`? -/
def listInfix : List Char → List Char → Bool
  | needle, [] => needle.isEmpty
  | needle, c :: rest => needle.isPrefixOf (c :: rest) || listInfix needle rest

/-- Model of Python `needle in hay` for strings (substring containment). -/
def pyInStr (needle hay : String) : Bool := listInfix needle.data hay.data

/-- Model of Python `s.split(sep)[0]` for a single-character separator: the
token before the first occurrence of `sep` (the whole string when `sep` is
absent, exactly as in Python). -/
def pySplitHead (s : String) (sep : Char) : String :=
  String.mk (s.data.takeWhile (fun c => c ≠ sep))

/-- JSON values as parsed by Python `json.loads`.  A number is the exact
decimal `n / 10 ^ k`; Python ints correspond to `k = 0`.  (JSON number
equality is never consulted by the embedded code: dictionaries are keyed by
strings only.) -/
inductive JValue where
  | null : JValue
  | bool (b : Bool) : JValue
  | num (n : Int) (k : Nat) : JValue
  | str (s : String) : JValue
  | arr (xs : List JValue) : JValue
  | obj (kvs : List (String × JValue)) : JValue
deriving Repr

/-- Python truthiness (`if value:`) of a JSON value: `None`, `False`, zero,
the empty string, the empty list and the empty dict are falsy. -/
def jTruthy : JValue → Bool
  | .null => false
  | .bool b => b
  | .num n _ => n ≠ 0
  | .str s => s ≠ ""
  | .arr xs => ¬ xs.isEmpty
  | .obj kvs => ¬ kvs.isEmpty

/-- Python dict lookup `d.get(key)` / `d[key]` on an association list whose
keys are unique (first occurrence wins). -/
def dictLookup {α : Type} : List (String × α) → String → Option α
  | [], _ => none
  | (k, v) :: rest, key => if k = key then some v else dictLookup rest key

/-- Python `key in d`. -/
def dictContains {α : Type} (d : List (String × α)) (key : String) : Bool :=
  (dictLookup d key).isSome

/-- Python dict assignment `d[key] = v`: replaces the value in place when the
key is present, appends otherwise. -/
def dictInsert {α : Type} : List (String × α) → String → α → List (String × α)
  | [], key, v => [(key, v)]
  | (k, w) :: rest, key, v =>
    if k = key then (k, v) :: rest else (k, w) :: dictInsert rest key v

/-- UTF-8 encoding of one character (model of Python `str.encode()` per
code point). -/
def utf8EncodeCharNat (c : Char) : List Nat :=
  let n := c.toNat
  if n < 0x80 then [n]
  else if n < 0x800 then
    [0xC0 + n / 64, 0x80 + n % 64]
  else if n < 0x10000 then
    [0xE0 + n / 4096, 0x80 + (n / 64) % 64, 0x80 + n % 64]
  else
    [0xF0 + n / 262144, 0x80 + (n / 4096) % 64, 0x80 + (n / 64) % 64,
     0x80 + n % 64]

/-- Model of Python `s.encode()` (UTF-8 bytes of a string). -/
def utf8Encode (s : String) : List Nat := s.data.flatMap utf8EncodeCharNat

/-- The base64 alphabet, by index (RFC 4648, as used by Python
`base64.b64encode`). -/
def b64Char (n : Nat) : Char :=
  if n < 26 then Char.ofNat (65 + n)
  else if n < 52 then Char.ofNat (97 + (n - 26))
  else if n < 62 then Char.ofNat (48 + (n - 52))
  else if n = 62 then '+'
  else '/'

/-- Base64 encoding of a byte list, with `=` padding; model of Python
`base64.b64encode(...).decode()`. -/
def b64encode : List Nat → String
  | [] => ""
  | [a] =>
    String.mk [b64Char (a / 4), b64Char ((a % 4) * 16)] ++ "=="
  | [a, b] =>
    String.mk [b64Char (a / 4), b64Char ((a % 4) * 16 + b / 16),
               b64Char ((b % 16) * 4)] ++ "="
  | a :: b :: c :: rest =>
    String.mk [b64Char (a / 4), b64Char ((a % 4) * 16 + b / 16),
               b64Char ((b % 16) * 4 + c / 64), b64Char (c % 64)] ++
    b64encode rest

/-! ## Provider registry (`provider_registry.py`) -/

/-- `ProviderRegistry.discover_providers`: each adapter module file
`<module>.py` under `providers/` (other than `__init__.py` and `base.py`)
that defines a `BaseProvider` subclass is registered under the key
`module.replace(UNDERSCORE, HYPHEN)`.  The repository ships the modules
`grok_direct`, `grok_openai` and `openrouter`, each defining one subclass. -/
def registry_keys (module_names : List String) : List String :=
  module_names.map (fun m => pyReplaceChar m '_' '-')

/-- The adapter modules present in this repository's `providers/` directory. -/
def repo_provider_modules : List String :=
  ["grok_direct", "grok_openai", "openrouter"]

/-- The registry key table the repository's discovery builds. -/
def repo_registry_keys : List String := registry_keys repo_provider_modules

/-- `ProviderRegistry.normalize_provider_name`: lower-cases the input and
replaces spaces and hyphens with underscores, then scans the registered keys
for one whose lower-casing equals that; returns the key on a hit and the
input unchanged otherwise. -/
def normalize_provider_name (keys : List String) (provider_name : String) :
    String :=
  let provider_name_lower :=
    pyReplaceChar (pyReplaceChar (pyLower provider_name) ' ' '_') '-' '_'
  match keys.find? (fun key => pyLower key = provider_name_lower) with
  | some key => key
  | none => provider_name

/-- `ProviderRegistry.is_valid_provider`: case-insensitive membership of the
name among the registered keys. -/
def is_valid_provider (keys : List String) (provider_name : String) : Bool :=
  (keys.map pyLower).contains (pyLower provider_name)

/-! ## Dynamic provider loader (`dynamic_provider_loader.py`) -/

/-- The model-name normalization used by `get_model_mapping`'s second tier:
`model_name.lower().replace(SPACE, HYPHEN).replace(UNDERSCORE, HYPHEN)`. -/
def normalize_model_name (model_name : String) : String :=
  pyReplaceChar (pyReplaceChar (pyLower model_name) ' ' '-') '_' '-'

/-- The mapping-level core of `DynamicProviderLoader.get_model_mapping`,
after the provider row has been fetched and its `model_mapping` blob parsed
into a dictionary `kvs` (the only shape the admin tooling stores; a non-dict
JSON blob would make the Python code take `in` / indexing on a non-dict and
is outside every claim): empty mapping returns `None`; then exact key match,
then the normalized name, then — when the normalized name contains a
hyphen — the token before its first hyphen; `None` when no tier hits. -/
def get_model_mapping_in (kvs : List (String × JValue)) (model_name : String) :
    Option JValue :=
  if kvs.isEmpty then none
  else if dictContains kvs model_name then dictLookup kvs model_name
  else
    let normalized_model := normalize_model_name model_name
    if dictContains kvs normalized_model then dictLookup kvs normalized_model
    else if pyInStr "-" normalized_model then
      let simplified_model := pySplitHead normalized_model '-'
      if dictContains kvs simplified_model then dictLookup kvs simplified_model
      else none
    else none

/-! ## Command alias manager (`config/command_alias_manager.py`) -/

/-- One row of the `command_aliases` table joined with its provider, as
consulted by `get_provider_by_alias`. -/
structure AliasRow where
  command_alias : String
  is_active : Bool
  provider_name : String
  alias_type : String
deriving Repr, DecidableEq

/-- `CommandAliasManager.get_provider_by_alias`: the first row whose
`command_alias` equals the token and whose `is_active` flag is set (the SQL
`WHERE ca.command_alias = ? AND ca.is_active = 1` with `fetchone`). -/
def get_provider_by_alias (rows : List AliasRow) (command_alias : String) :
    Option AliasRow :=
  rows.find? (fun r => r.command_alias = command_alias && r.is_active)

/-- `app.alias_based_proxy`: the routing decision for one inbound token —
which provider name `proxy_request` is invoked with, and whether the
custom-prompt flag is set.  An alias hit routes to the bound provider with
`custom` iff the alias kind is the literal string `custom`; otherwise the
token is used as a literal provider name with `custom` iff the substring
`custom` occurs in the token. -/
def alias_based_proxy_route (rows : List AliasRow) (command_alias : String) :
    String × Bool :=
  match get_provider_by_alias rows command_alias with
  | some info => (info.provider_name, info.alias_type = "custom")
  | none => (command_alias, pyInStr "custom" command_alias)

/-! ## A model of Python `json.loads`

The loader parses stored JSON blobs with `json.loads`; the parser below
implements JSON (RFC 8259) over character lists, with a fuel argument
bounding the recursion.  It agrees with Python's strict decoder on the
values and on well-formedness, up to two documented approximations: a
`\u` escape is decoded as a single code point (no surrogate pairing), and
numbers are kept as exact decimals (Python distinguishes int from float;
no embedded code consults that distinction). -/

/-- Skip JSON whitespace (space, tab, newline, carriage return). -/
def jskipWs : List Char → List Char
  | [] => []
  | c :: rest =>
    if c = ' ' ∨ c = '\t' ∨ c = '\n' ∨ c = '\r' then jskipWs rest
    else c :: rest

/-- Leading decimal digits of a character list, and the remainder. -/
def jdigits : List Char → List Char × List Char
  | [] => ([], [])
  | c :: rest =>
    if c.isDigit then
      let (ds, r) := jdigits rest
      (c :: ds, r)
    else ([], c :: rest)

/-- Numeric value of a digit list. -/
def digitsVal (ds : List Char) : Nat :=
  ds.foldl (fun a c => a * 10 + (c.toNat - 48)) 0

/-- Value of a hexadecimal digit, if any. -/
def hexVal (c : Char) : Option Nat :=
  if '0' ≤ c ∧ c ≤ '9' then some (c.toNat - 48)
  else if 'a' ≤ c ∧ c ≤ 'f' then some (c.toNat - 87)
  else if 'A' ≤ c ∧ c ≤ 'F' then some (c.toNat - 55)
  else none

/-- Parse a JSON number (sign, integer part without leading zeros, optional
fraction, optional exponent) into mantissa and power-of-ten denominator. -/
def jparseNum (cs : List Char) : Except String ((Int × Nat) × List Char) := do
  let (neg, cs) := match cs with
    | '-' :: rest => (true, rest)
    | _ => (false, cs)
  let (ids, cs) := jdigits cs
  if ids.isEmpty then throw "Expecting value"
  if ids.length > 1 ∧ ids.headD '0' = '0' then throw "Expecting value"
  let (fds, cs) ← match cs with
    | '.' :: rest =>
      let (fds, r) := jdigits rest
      if fds.isEmpty then throw "Expecting value" else pure (fds, r)
    | _ => pure (([] : List Char), cs)
  let (expSgn, eds, cs) ← match cs with
    | 'e' :: rest | 'E' :: rest =>
      let (sgn, rest) := match rest with
        | '+' :: r => (false, r)
        | '-' :: r => (true, r)
        | _ => (false, rest)
      let (eds, r) := jdigits rest
      if eds.isEmpty then throw "Expecting value"
      else pure (sgn, eds, r)
    | _ => pure (false, ([] : List Char), cs)
  let mant : Int := Int.ofNat (digitsVal ids * 10 ^ fds.length
    + digitsVal fds)
  let mant := if neg then -mant else mant
  let e := digitsVal eds
  let (mant, k) :=
    if expSgn then (mant, fds.length + e)
    else (mant * Int.ofNat (10 ^ e), fds.length)
  pure ((mant, k), cs)

/-- Parse the body of a JSON string (after the opening quote), handling the
escape sequences of RFC 8259; rejects unescaped control characters as
Python's strict decoder does. -/
def jparseStrBody : List Char → Except String (List Char × List Char)
  | [] => .error "Unterminated string"
  | '"' :: rest => .ok ([], rest)
  | '\\' :: e :: rest =>
    match e with
    | '"' => do let (s, r) ← jparseStrBody rest; .ok ('"' :: s, r)
    | '\\' => do let (s, r) ← jparseStrBody rest; .ok ('\\' :: s, r)
    | '/' => do let (s, r) ← jparseStrBody rest; .ok ('/' :: s, r)
    | 'b' => do let (s, r) ← jparseStrBody rest; .ok ('\x08' :: s, r)
    | 'f' => do let (s, r) ← jparseStrBody rest; .ok ('\x0C' :: s, r)
    | 'n' => do let (s, r) ← jparseStrBody rest; .ok ('\n' :: s, r)
    | 'r' => do let (s, r) ← jparseStrBody rest; .ok ('\x0D' :: s, r)
    | 't' => do let (s, r) ← jparseStrBody rest; .ok ('\t' :: s, r)
    | 'u' =>
      match rest with
      | h1 :: h2 :: h3 :: h4 :: rest2 =>
        match hexVal h1, hexVal h2, hexVal h3, hexVal h4 with
        | some a, some b, some c, some d => do
          let (s, r) ← jparseStrBody rest2
          .ok (Char.ofNat (((a * 16 + b) * 16 + c) * 16 + d) :: s, r)
        | _, _, _, _ => .error "Invalid hex escape"
      | _ => .error "Invalid hex escape"
    | _ => .error "Invalid escape"
  | '\\' :: [] => .error "Unterminated string"
  | c :: rest =>
    if c.toNat < 0x20 then .error "Invalid control character"
    else do let (s, r) ← jparseStrBody rest; .ok (c :: s, r)

mutual

/-- Parse one JSON value; `fuel` bounds the recursion (the callers pass the
input length, which suffices since every recursive step consumes input). -/
def jparseVal : Nat → List Char → Except String (JValue × List Char)
  | 0, _ => .error "json too deep"
  | fuel + 1, cs =>
    match jskipWs cs with
    | 'n' :: 'u' :: 'l' :: 'l' :: rest => .ok (.null, rest)
    | 't' :: 'r' :: 'u' :: 'e' :: rest => .ok (.bool true, rest)
    | 'f' :: 'a' :: 'l' :: 's' :: 'e' :: rest => .ok (.bool false, rest)
    | '"' :: rest => do
      let (s, r) ← jparseStrBody rest
      .ok (.str (String.mk s), r)
    | '[' :: rest =>
      match jskipWs rest with
      | ']' :: r => .ok (.arr [], r)
      | cs2 => do
        let (xs, r) ← jparseElems fuel cs2
        .ok (.arr xs, r)
    | '\x7b' :: rest =>
      match jskipWs rest with
      | '\x7d' :: r => .ok (.obj [], r)
      | cs2 => do
        let (items, r) ← jparseItems fuel cs2
        .ok (.obj (items.foldl (fun d kv => dictInsert d kv.1 kv.2) []), r)
    | cs2 => do
      let ((n, k), r) ← jparseNum cs2
      .ok (.num n k, r)

/-- Parse the comma-separated elements of a JSON array up to `]`. -/
def jparseElems : Nat → List Char → Except String (List JValue × List Char)
  | 0, _ => .error "json too deep"
  | fuel + 1, cs => do
    let (v, r) ← jparseVal fuel cs
    match jskipWs r with
    | ',' :: r2 => do
      let (vs, r3) ← jparseElems fuel r2
      .ok (v :: vs, r3)
    | ']' :: r2 => .ok ([v], r2)
    | _ => .error "Expecting comma"

/-- Parse the comma-separated members of a JSON object up to the closing
brace. -/
def jparseItems : Nat →
    List Char → Except String (List (String × JValue) × List Char)
  | 0, _ => .error "json too deep"
  | fuel + 1, cs =>
    match jskipWs cs with
    | '"' :: rest => do
      let (key, r) ← jparseStrBody rest
      match jskipWs r with
      | ':' :: r2 => do
        let (v, r3) ← jparseVal fuel r2
        match jskipWs r3 with
        | ',' :: r4 => do
          let (items, r5) ← jparseItems fuel r4
          .ok ((String.mk key, v) :: items, r5)
        | '\x7d' :: r4 => .ok ([(String.mk key, v)], r4)
        | _ => .error "Expecting comma"
      | _ => .error "Expecting colon"
    | _ => .error "Expecting property name"

end

/-- Model of Python `json.loads` on a string: parse one value and require
only whitespace after it. -/
def json_loads (s : String) : Except String JValue := do
  let (v, rest) ← jparseVal (s.data.length + 1) s.data
  if (jskipWs rest).isEmpty then .ok v else .error "Extra data"

/-! ## Stored provider rows and `_parse_provider_row` -/

/-- A SQLite cell as fetched by the loader: NULL, an integer, or text. -/
inductive DBVal where
  | null : DBVal
  | int (n : Int) : DBVal
  | text (s : String) : DBVal
deriving Repr, DecidableEq

/-- Python truthiness of a fetched cell. -/
def dbTruthy : DBVal → Bool
  | .null => false
  | .int n => n ≠ 0
  | .text s => s ≠ ""

/-- Python `row[i]`: raises `IndexError` past the end. -/
def rowGet (row : List DBVal) (i : Nat) : Except String DBVal :=
  match row[i]? with
  | some v => .ok v
  | none => .error "IndexError"

/-- Python `bool(cell)`. -/
def dbToBool (v : DBVal) : Bool := dbTruthy v

/-- Model of Python `s.split(sep, 1)` for a single-character separator: the
part before the first occurrence and the part after it. -/
def pySplitOnce (s : String) (sep : Char) : String × String :=
  (String.mk (s.data.takeWhile (fun c => c ≠ sep)),
   String.mk ((s.data.dropWhile (fun c => c ≠ sep)).drop 1))

/-- The provider configuration `_parse_provider_row` builds from a row. -/
structure ParsedProviderConfig where
  id : DBVal
  name : DBVal
  api_endpoint : DBVal
  api_key : DBVal
  default_model : DBVal
  auth_method : DBVal
  is_active : Bool
  created_at : DBVal
  updated_at : DBVal
  api_standard : DBVal
  supported_models : JValue
  model_mapping : JValue
  headers : List (String × String)
deriving Repr

/-- The `try/except` around a stored JSON blob in `_parse_provider_row`: a
falsy blob (NULL, `0`, the empty string) yields the empty dict without
parsing; a text blob is `json.loads`-parsed, with a decode failure caught
and turned into the empty dict; a truthy non-text blob would raise
`TypeError` inside `json.loads`, which the `except json.JSONDecodeError`
clause does not catch, so it propagates. -/
def parse_json_blob (blob : DBVal) : Except String JValue :=
  match blob with
  | .null => .ok (.obj [])
  | .int n => if n = 0 then .ok (.obj []) else .error "TypeError"
  | .text s =>
    if s = "" then .ok (.obj [])
    else
      match json_loads s with
      | .ok v => .ok v
      | .error _ => .ok (.obj [])

/-- The headers loop of `_parse_provider_row`: when a 13th column is present
and truthy, split it on commas, keep the pairs containing a colon, and build
a dict from key/value split at the first colon.  A truthy non-text cell
would raise `AttributeError` (no `.split`), which propagates. -/
def parse_headers_column (row : List DBVal) :
    Except String (List (String × String)) :=
  match row[12]? with
  | none => .ok []
  | some cell =>
    if dbTruthy cell then
      match cell with
      | .text s =>
        .ok ((s.split (fun c => c = ',')).foldl
          (fun d pair =>
            if pyInStr ":" pair then
              let (key, value) := pySplitOnce pair ':'
              dictInsert d key value
            else d) [])
      | _ => .error "AttributeError"
    else .ok []

/-- `DynamicProviderLoader._parse_provider_row`: positional extraction of
the row columns (an out-of-range access raises `IndexError`, which the
callers catch), defaulting `api_standard` to `openai` and the two JSON
blobs to the empty-object text when the row is short, then parsing the
headers column and the two blobs. -/
def parse_provider_row (row : List DBVal) :
    Except String ParsedProviderConfig := do
  let id ← rowGet row 0
  let name ← rowGet row 1
  let api_endpoint ← rowGet row 2
  let api_key ← rowGet row 3
  let default_model ← rowGet row 4
  let auth_method ← rowGet row 5
  let is_active_cell ← rowGet row 6
  let created_at ← rowGet row 7
  let updated_at ← rowGet row 8
  let api_standard := (row[9]?).getD (.text "openai")
  let supported_models_blob := (row[10]?).getD (.text "\x7b\x7d")
  let model_mapping_blob := (row[11]?).getD (.text "\x7b\x7d")
  let headers ← parse_headers_column row
  let model_mapping ← parse_json_blob model_mapping_blob
  let supported_models ← parse_json_blob supported_models_blob
  pure ⟨id, name, api_endpoint, api_key, default_model, auth_method,
    dbToBool is_active_cell, created_at, updated_at, api_standard,
    supported_models, model_mapping, headers⟩

/-- `DynamicProviderLoader.get_provider_by_name`: normalize the requested
name against the registry, find the first stored row whose name column
matches case-insensitively (the SQL `WHERE LOWER(p.name) = LOWER(?)` with
`fetchone`), and parse it; any exception makes the method return `None`. -/
def get_provider_by_name (rows : List (List DBVal)) (keys : List String)
    (provider_name : String) : Option ParsedProviderConfig :=
  let normalized_name := normalize_provider_name keys provider_name
  match rows.find? (fun row =>
      match row[1]? with
      | some (DBVal.text s) => pyLower s = pyLower normalized_name
      | _ => false) with
  | none => none
  | some row =>
    match parse_provider_row row with
    | .ok p => some p
    | .error _ => none

/-- `DynamicProviderLoader.get_model_mapping`: fetch the provider by name
(`None` when absent), then run the tiered lookup on its parsed mapping.
A parsed mapping that is valid JSON but not an object is outside this
model (the Python code would then take `in` / indexing on a non-dict);
a falsy one (`.obj []` included) returns `None` exactly as the code's
`if not model_mapping` does. -/
def get_model_mapping (rows : List (List DBVal)) (keys : List String)
    (provider_name model_name : String) : Option JValue :=
  match get_provider_by_name rows keys provider_name with
  | none => none
  | some provider =>
    match provider.model_mapping with
    | .obj kvs => get_model_mapping_in kvs model_name
    | _ => none

/-! ## Request validators (`validation/validators.py`) -/

/-- Model of Python `int(s)` on a string: optional surrounding spaces, an
optional sign, then decimal digits (Python additionally accepts underscores
and non-ASCII digits; no embedded call site feeds those). -/
def pyParseInt (s : String) : Option Int :=
  let t := ((s.data.dropWhile (fun c => c = ' ')).reverse.dropWhile
    (fun c => c = ' ')).reverse
  let (neg, t) := match t with
    | '-' :: r => (true, r)
    | '+' :: r => (false, r)
    | _ => (false, t)
  if t.isEmpty ∨ ¬ t.all Char.isDigit then none
  else some ((if neg then -1 else 1) * Int.ofNat (digitsVal t))

/-- Model of Python `int(value)` on a JSON value: bools count as 0/1,
numbers truncate toward zero, numeric strings parse; anything else raises
(`none`). -/
def pyToInt : JValue → Option Int
  | .bool b => some (if b then 1 else 0)
  | .num n k => some (Int.tdiv n ((10 : Int) ^ k))
  | .str s => pyParseInt s
  | _ => none

mutual

/-- Model of Python `str(value)` on a JSON value, used by
`Validator.validate_string` when handed a non-string.  Collection rendering
follows Python's `str` up to quoting details (no claim inspects it: it only
feeds a length check and a value no claim mentions). -/
def pyStr : JValue → String
  | .null => "None"
  | .bool true => "True"
  | .bool false => "False"
  | .num n 0 => toString n
  | .num n (k + 1) => toString n ++ "e-" ++ toString (k + 1)
  | .str s => s
  | .arr xs =>
    "[" ++ String.intercalate ", " (pyStrList xs) ++ "]"
  | .obj kvs =>
    "\x7b" ++ String.intercalate ", " (pyStrPairs kvs) ++ "\x7d"

def pyStrList : List JValue → List String
  | [] => []
  | x :: xs => pyStr x :: pyStrList xs

def pyStrPairs : List (String × JValue) → List String
  | [] => []
  | (k, v) :: kvs => (k ++ ": " ++ pyStr v) :: pyStrPairs kvs

end

/-- `Validator.validate_string` (the pattern argument is omitted: no call
site reached from the request path passes one): required/empty handling,
conversion of non-strings via `str`, then the length bounds.  The
`max_length` bound is only applied when truthy, as in the Python
`if max_length and ...`. -/
def validate_string (value : JValue) (fieldName : String) (minLength : Nat)
    (maxLength : Option Nat) (required : Bool) : Except String String :=
  let isEmptyish := match value with
    | .null => true
    | .str "" => true
    | _ => false
  if required && isEmptyish then .error (fieldName ++ " is required")
  else if !required && isEmptyish then .ok ""
  else
    let s := match value with
      | .str s => s
      | v => pyStr v
    if s.length < minLength then
      .error (fieldName ++ " must be at least " ++ toString minLength ++
        " characters long")
    else
      match maxLength with
      | some m =>
        if m ≠ 0 ∧ s.length > m then
          .error (fieldName ++ " must be no more than " ++ toString m ++
            " characters long")
        else .ok s
      | none => .ok s

/-- `Validator.validate_integer`: required/`None` handling, `int()`
conversion, then the explicit `is not None` range bounds. -/
def validate_integer (value : JValue) (fieldName : String)
    (minValue maxValue : Option Int) (required : Bool) :
    Except String (Option Int) :=
  match value with
  | .null =>
    if required then .error (fieldName ++ " is required") else .ok none
  | v =>
    match pyToInt v with
    | none => .error (fieldName ++ " must be an integer")
    | some n =>
      if (match minValue with
          | some m => decide (n < m)
          | none => false) then
        .error (fieldName ++ " must be at least " ++
          toString (minValue.getD 0))
      else if (match maxValue with
          | some m => decide (n > m)
          | none => false) then
        .error (fieldName ++ " must be no more than " ++
          toString (maxValue.getD 0))
      else .ok (some n)

/-- The `max_tokens` step of `validate_anthropic_request`: absent keys are
skipped; present ones run `validate_integer(..., 1, 4096)` (required, so
the `None` result is unreachable, kept for totality as the `null` it would
store). -/
def valdMaxTokens (kvs : List (String × JValue)) :
    Except String (List (String × JValue)) :=
  match dictLookup kvs "max_tokens" with
  | none => .ok []
  | some v =>
    match validate_integer v "Max tokens" (some 1) (some 4096) true with
    | .error e => .error e
    | .ok none => .ok [("max_tokens", JValue.null)]
    | .ok (some n) => .ok [("max_tokens", JValue.num n 0)]

/-- The `temperature` step: a present value must be an int, float or bool
(Python bools pass `isinstance(temp, (int, float))` and are 0/1, hence
always in range) lying in `[0, 1]`, and is stored unchanged. -/
def valdTemperature (kvs : List (String × JValue)) :
    Except String (List (String × JValue)) :=
  match dictLookup kvs "temperature" with
  | none => .ok []
  | some (JValue.num n k) =>
    if n < 0 ∨ n > (10 : Int) ^ k then
      .error "Temperature must be a number between 0 and 1"
    else .ok [("temperature", JValue.num n k)]
  | some (JValue.bool b) => .ok [("temperature", JValue.bool b)]
  | some _ => .error "Temperature must be a number between 0 and 1"

/-- The `system` step: copied verbatim when present. -/
def valdSystem (kvs : List (String × JValue)) : List (String × JValue) :=
  match dictLookup kvs "system" with
  | none => []
  | some v => [("system", v)]

/-- The `tools` step: must be an array when present, copied verbatim. -/
def valdTools (kvs : List (String × JValue)) :
    Except String (List (String × JValue)) :=
  match dictLookup kvs "tools" with
  | none => .ok []
  | some (JValue.arr ts) => .ok [("tools", JValue.arr ts)]
  | some _ => .error "Tools must be an array"

/-- The `tool_choice` step: copied verbatim when present. -/
def valdToolChoice (kvs : List (String × JValue)) : List (String × JValue) :=
  match dictLookup kvs "tool_choice" with
  | none => []
  | some v => [("tool_choice", v)]

/-- `validate_anthropic_request`: requires a JSON object with `model` (a
string validated to 1..100 characters) and `messages` (an array), then
copies/validates the five optional fields, building the result dict in the
source's assignment order.  The keys being pairwise distinct literals, the
successive dict assignments of the Python code are exactly this
concatenation. -/
def validate_anthropic_request (request_data : JValue) :
    Except String (List (String × JValue)) := do
  let JValue.obj kvs := request_data
    | throw "Request data must be a JSON object"
  let some modelV := dictLookup kvs "model"
    | throw "Model is required"
  let model ← validate_string modelV "Model" 1 (some 100) true
  let some msgsV := dictLookup kvs "messages"
    | throw "Messages are required"
  let JValue.arr msgs := msgsV
    | throw "Messages must be an array"
  let maxTok ← valdMaxTokens kvs
  let temp ← valdTemperature kvs
  let tools ← valdTools kvs
  pure ([("model", JValue.str model), ("messages", JValue.arr msgs)] ++
    maxTok ++ temp ++ valdSystem kvs ++ tools ++ valdToolChoice kvs)

/-! ## Base provider (`providers/base.py`) -/

/-- The adapter state `BaseProvider.__init__` keeps from its configuration
(the stored columns are text, modelled as strings). -/
structure BaseProviderState where
  name : String
  api_endpoint : String
  api_key : String
  default_model : Option String
  auth_method : String
  headers : List (String × String)
  is_active : Bool
deriving Repr, DecidableEq

/-- `BaseProvider.get_auth_headers`: `bearer_token` adds
`Authorization: Bearer <key>`; `basic_auth` adds
`Authorization: Basic <base64 of the UTF-8 key>`; `custom_header` (and any
other method) adds nothing. -/
def get_auth_headers (p : BaseProviderState) : List (String × String) :=
  if p.auth_method = "bearer_token" then
    [("Authorization", "Bearer " ++ p.api_key)]
  else if p.auth_method = "basic_auth" then
    [("Authorization", "Basic " ++ b64encode (utf8Encode p.api_key))]
  else []

/-- Python `d.update(e)` on dict models: assign every pair of `e` into `d`
in order. -/
def dictUpdate {α : Type} (d e : List (String × α)) : List (String × α) :=
  e.foldl (fun acc kv => dictInsert acc kv.1 kv.2) d

/-! ## Grok OpenAI adapter (`providers/grok_openai.py`) -/

/-- `GrokOpenAIProvider.__init__`: endpoints not containing `api.x.ai` are
overwritten with the fixed Grok base URL. -/
def grok_openai_init_endpoint (api_endpoint : String) : String :=
  if pyInStr "api.x.ai" api_endpoint then api_endpoint
  else "https://api.x.ai/v1"

/-- The HTTP call `requests.post` receives: URL, headers, JSON body, the
streaming flag, and the timeout in seconds. -/
structure HttpCall where
  url : String
  headers : List (String × String)
  body : List (String × JValue)
  stream : Bool
  timeout : Nat
deriving Repr

/-- The pure content of `GrokOpenAIProvider.send_request`: headers are
`Content-Type: application/json` plus the auth headers, updated with the
configured custom headers; then the provider request's `model` field is
overwritten in place with `grok-4`, and the call goes to
`<endpoint>/chat/completions` with a 300-second timeout.  (The I/O itself —
`requests.post` and transport-error wrapping — is outside the embedding.) -/
def grok_openai_send_request (p : BaseProviderState)
    (provider_request : List (String × JValue)) (stream : Bool) : HttpCall :=
  let headers := dictUpdate
    (dictUpdate [("Content-Type", "application/json")] (get_auth_headers p))
    p.headers
  let provider_request :=
    dictInsert provider_request "model" (JValue.str "grok-4")
  ⟨p.api_endpoint ++ "/chat/completions", headers, provider_request, stream,
    300⟩

/-! ## A model of Python `json.dumps` (used for the streamed error chunk) -/

/-- Escape one character for a JSON string literal (the escapes the emitted
strings can contain). -/
def jescapeChar (c : Char) : List Char :=
  if c = '"' then ['\\', '"']
  else if c = '\\' then ['\\', '\\']
  else if c = '\n' then ['\\', 'n']
  else if c = '\x0D' then ['\\', 'r']
  else if c = '\t' then ['\\', 't']
  else [c]

/-- Quote a string as a JSON literal. -/
def jstrQuote (s : String) : String :=
  "\"" ++ String.mk (s.data.flatMap jescapeChar) ++ "\""

/-- Render the exact decimal `n / 10 ^ k` with a decimal point. -/
def jnumDecimal (n : Int) (k : Nat) : String :=
  let a := n.natAbs
  let intPart := a / 10 ^ k
  let frac := toString (a % 10 ^ k)
  let fracPadded := String.mk (List.replicate (k - frac.length) '0') ++ frac
  (if n < 0 then "-" else "") ++ toString intPart ++ "." ++ fracPadded

mutual

/-- Model of Python `json.dumps` with its default separators. -/
def json_dumps : JValue → String
  | .null => "null"
  | .bool true => "true"
  | .bool false => "false"
  | .num n 0 => toString n
  | .num n (k + 1) => jnumDecimal n (k + 1)
  | .str s => jstrQuote s
  | .arr xs => "[" ++ String.intercalate ", " (jdumpsList xs) ++ "]"
  | .obj kvs => "\x7b" ++ String.intercalate ", " (jdumpsPairs kvs) ++ "\x7d"

def jdumpsList : List JValue → List String
  | [] => []
  | x :: xs => json_dumps x :: jdumpsList xs

def jdumpsPairs : List (String × JValue) → List String
  | [] => []
  | (k, v) :: kvs => (jstrQuote k ++ ": " ++ json_dumps v) :: jdumpsPairs kvs

end

/-! ## Error responses and the orchestrator (`errors/handlers.py`, `app.py`) -/

/-- `create_error_response`: the canonical error body. -/
def create_error_response (message code : String) (status : Nat) : JValue :=
  JValue.obj [("error", JValue.obj
    [("message", JValue.str message), ("code", JValue.str code),
     ("status", JValue.num status 0)])]

/-- An upstream HTTP response as the orchestrator consumes it:
`chunks` is the byte-chunk sequence `iter_content` yields (so
`response.content` is their concatenation), and `stream_err` models a
transport error raised during iteration, after the listed chunks. -/
structure UpstreamResponse where
  status_code : Nat
  content_type : Option String
  chunks : List (List Nat)
  stream_err : Option String
deriving Repr

/-- The byte chunks the relay generator in `proxy_request` yields: each
upstream chunk is forwarded as-is when truthy (non-empty); an iteration
error appends one JSON-encoded error chunk. -/
def stream_relay_chunks (r : UpstreamResponse) : List (List Nat) :=
  (r.chunks.filter (fun c => ¬ c.isEmpty)) ++
  (match r.stream_err with
   | none => []
   | some e => [utf8Encode (json_dumps (create_error_response
       ("Streaming error: " ++ e) "STREAMING_ERROR" 500))])

/-- UTF-8 decoding of a byte list (strict, as `requests`' JSON path uses;
rejects bad continuation bytes, the C0/C1 overlong leads, surrogates and
out-of-range code points), with fuel bounding the recursion. -/
def utf8DecodeAux : Nat → List Nat → Option (List Char)
  | 0, _ => none
  | _, [] => some []
  | fuel + 1, b :: rest =>
    if b < 0x80 then (utf8DecodeAux fuel rest).map (Char.ofNat b :: ·)
    else if b < 0xC2 then none
    else if b < 0xE0 then
      match rest with
      | b2 :: r2 =>
        if 0x80 ≤ b2 ∧ b2 < 0xC0 then
          (utf8DecodeAux fuel r2).map
            (Char.ofNat ((b - 0xC0) * 64 + (b2 - 0x80)) :: ·)
        else none
      | [] => none
    else if b < 0xF0 then
      match rest with
      | b2 :: b3 :: r2 =>
        if (0x80 ≤ b2 ∧ b2 < 0xC0) ∧ (0x80 ≤ b3 ∧ b3 < 0xC0) then
          let cp := (b - 0xE0) * 4096 + (b2 - 0x80) * 64 + (b3 - 0x80)
          if cp < 0x800 ∨ (0xD800 ≤ cp ∧ cp < 0xE000) then none
          else (utf8DecodeAux fuel r2).map (Char.ofNat cp :: ·)
        else none
      | _ => none
    else if b < 0xF5 then
      match rest with
      | b2 :: b3 :: b4 :: r2 =>
        if (0x80 ≤ b2 ∧ b2 < 0xC0) ∧ (0x80 ≤ b3 ∧ b3 < 0xC0) ∧
            (0x80 ≤ b4 ∧ b4 < 0xC0) then
          let cp := (b - 0xF0) * 262144 + (b2 - 0x80) * 4096 +
            (b3 - 0x80) * 64 + (b4 - 0x80)
          if cp < 0x10000 ∨ 0x110000 ≤ cp then none
          else (utf8DecodeAux fuel r2).map (Char.ofNat cp :: ·)
        else none
      | _ => none
    else none

/-- UTF-8 decoding of a byte list into a string. -/
def utf8Decode (bs : List Nat) : Option String :=
  (utf8DecodeAux (bs.length + 1) bs).map String.mk

/-- What the orchestrator sends back for one upstream exchange. -/
inductive OrchestratorResult where
  | relay (status : Nat) (contentType : Option String) (body : List Nat)
  | streamRelay (status : Nat) (contentType : Option String)
      (chunks : List (List Nat))
  | errorResponse (message code : String) (status : Nat)
  | success (body : JValue)
deriving Repr

/-- The response-handling tail of `proxy_request` (`app.py` lines 172-206):
a non-200 upstream status is relayed verbatim (upstream status, upstream
content type, upstream body, no error-shape conversion); a 200 with the
streaming flag set relays the generator's chunks under the upstream content
type and status; otherwise the body is decoded and JSON-parsed
(`RESPONSE_PARSE_ERROR` on failure), then translated by the adapter's
`process_response`, abstracted as `process` (`RESPONSE_PROCESS_ERROR` on
failure), and returned as the success body. -/
def handle_response (process : JValue → Except String JValue)
    (r : UpstreamResponse) (stream : Bool) : OrchestratorResult :=
  if r.status_code ≠ 200 then
    .relay r.status_code r.content_type r.chunks.flatten
  else if stream then
    .streamRelay r.status_code r.content_type (stream_relay_chunks r)
  else
    match utf8Decode r.chunks.flatten with
    | none =>
      .errorResponse "Error parsing response: invalid encoding"
        "RESPONSE_PARSE_ERROR" 500
    | some text =>
      match json_loads text with
      | .error e =>
        .errorResponse ("Error parsing response: " ++ e)
          "RESPONSE_PARSE_ERROR" 500
      | .ok provider_response =>
        match process provider_response with
        | .error e =>
          .errorResponse ("Error processing response: " ++ e)
            "RESPONSE_PROCESS_ERROR" 500
        | .ok anthropic_response => .success anthropic_response

/-- The front of `proxy_request` (`app.py` lines 105-138), instrumented: the
second component records whether provider resolution (the
`get_provider_by_name` lookup) was reached.  In source order: the rate
check (whose `RateLimitError`, like every exception below, is caught by the
function's own `except Exception` and answered as `INTERNAL_ERROR` 500);
the `request.is_json` content-type test (`INVALID_REQUEST` 400 when it
fails); the `request.json` body access, whose parse failure raises
(Flask's `BadRequest`) and is caught by the same catch-all; the emptiness
test (`EMPTY_REQUEST` 400); validation (`VALIDATION_ERROR` 400); then
resolution (`PROVIDER_NOT_FOUND` 404 when no row matches).  Everything
after a successful resolution is `rest`. -/
def proxy_request_early (rate_limit_enabled rate_limit_exceeded : Bool)
    (rows : List (List DBVal)) (keys : List String) (provider_name : String)
    (req_is_json : Bool) (req_body : Except String JValue)
    (rest : ParsedProviderConfig → List (String × JValue) →
      OrchestratorResult) : OrchestratorResult × Bool :=
  if rate_limit_enabled && rate_limit_exceeded then
    (.errorResponse "Internal server error: Rate limit exceeded."
      "INTERNAL_ERROR" 500, false)
  else if !req_is_json then
    (.errorResponse "Request must be JSON" "INVALID_REQUEST" 400, false)
  else
    match req_body with
    | .error e =>
      (.errorResponse ("Internal server error: 400 Bad Request: " ++ e)
        "INTERNAL_ERROR" 500, false)
    | .ok data =>
      if !jTruthy data then
        (.errorResponse "Request body is empty" "EMPTY_REQUEST" 400, false)
      else
        match validate_anthropic_request data with
        | .error e => (.errorResponse e "VALIDATION_ERROR" 400, false)
        | .ok validated =>
          match get_provider_by_name rows keys provider_name with
          | none =>
            (.errorResponse ("Provider " ++ provider_name ++ " not found")
              "PROVIDER_NOT_FOUND" 404, true)
          | some provider => (rest provider validated, true)

/-- The streaming flag `proxy_request` computes after validation
(`data.get` with default `False`) and passes to `send_request`. -/
def orchestrator_stream_flag (validated : List (String × JValue)) : JValue :=
  (dictLookup validated "stream").getD (JValue.bool false)

/-- The error code and HTTP status of an error-shaped orchestrator result
(`none` for relays and successes). -/
def errorCodeStatus : OrchestratorResult → Option (String × Nat)
  | .errorResponse _ code status => some (code, status)
  | _ => none

/-! ## Helper lemmas -/

/-- Looking up the freshly assigned key returns the assigned value. -/
theorem dictLookup_dictInsert_self {α : Type} (d : List (String × α))
    (key : String) (v : α) : dictLookup (dictInsert d key v) key = some v := by
  induction d with
  | nil => simp [dictInsert, dictLookup]
  | cons hd tl ih =>
    obtain ⟨k, w⟩ := hd
    by_cases hk : k = key
    · subst hk; simp [dictInsert, dictLookup]
    · simp [dictInsert, dictLookup, hk, ih]

/-- A dict none of whose keys is `key` has no binding for `key`. -/
theorem dictLookup_eq_none_of_forall {α : Type} (d : List (String × α))
    (key : String) (h : ∀ k ∈ d.map Prod.fst, k ≠ key) :
    dictLookup d key = none := by
  induction d with
  | nil => rfl
  | cons hd tl ih =>
    obtain ⟨k, w⟩ := hd
    have hk : k ≠ key := h k (by simp)
    simp only [dictLookup, if_neg hk]
    exact ih (fun k2 hk2 => h k2 (by simp [hk2]))

/-! ## C2 -/

/-- C2: the claim states that `normalize_provider_name` maps both
`Grok (Direct)` and `grok-direct` to the registered key `grok-direct`.  On
the code it does not: discovery registers hyphenated keys
(`module.replace(UNDERSCORE, HYPHEN)`), while `normalize_provider_name`
rewrites the probe with underscores (`.replace(HYPHEN, UNDERSCORE)`), so no
probe can ever equal a key containing a hyphen; both inputs fall through
the key scan and are returned unchanged, and the two returned values
differ.  This theorem evaluates the code at the failing inputs. -/
theorem normalizeProviderName_grok_divergence :
    repo_registry_keys = ["grok-direct", "grok-openai", "openrouter"] ∧
    normalize_provider_name repo_registry_keys "Grok (Direct)" =
      "Grok (Direct)" ∧
    normalize_provider_name repo_registry_keys "grok-direct" =
      "grok-direct" ∧
    ("Grok (Direct)" : String) ≠ "grok-direct" :=
  ⟨rfl, rfl, rfl, by decide⟩

/-! ## C5 -/

/-- C5: every upstream response whose HTTP status is not 200 is relayed
with exactly the upstream status code, the upstream content type, and the
upstream body unmodified — never converted to the canonical error shape. -/
theorem handleResponse_non200_relays_verbatim
    (process : JValue → Except String JValue) (r : UpstreamResponse)
    (stream : Bool) (h : r.status_code ≠ 200) :
    handle_response process r stream =
      .relay r.status_code r.content_type r.chunks.flatten := by
  simp [handle_response, h]

/-- Witness for C5: a concrete 404 upstream response is relayed verbatim. -/
theorem handleResponse_non200_relays_verbatim_witness :
    handle_response (fun v => Except.ok v)
        ⟨404, some "text/plain", [[82], [76]], none⟩ false =
      .relay 404 (some "text/plain") [82, 76] :=
  handleResponse_non200_relays_verbatim (fun v => Except.ok v)
    ⟨404, some "text/plain", [[82], [76]], none⟩ false (by decide)

/-! ## C8 -/

/-- C8: `get_auth_headers` yields exactly `Authorization: Bearer <key>` for
the bearer-token method, exactly `Authorization: Basic <base64-of-key>` for
basic-auth, and an empty header map for the custom-header method, whatever
the rest of the configuration holds. -/
theorem getAuthHeaders_by_method (name ep key : String)
    (dm : Option String) (hs : List (String × String)) (act : Bool) :
    get_auth_headers ⟨name, ep, key, dm, "bearer_token", hs, act⟩ =
      [("Authorization", "Bearer " ++ key)] ∧
    get_auth_headers ⟨name, ep, key, dm, "basic_auth", hs, act⟩ =
      [("Authorization", "Basic " ++ b64encode (utf8Encode key))] ∧
    get_auth_headers ⟨name, ep, key, dm, "custom_header", hs, act⟩ = [] :=
  ⟨rfl, rfl, rfl⟩

/-! ## C9 -/

/-- C9: the Grok OpenAI adapter's `send_request` unconditionally overwrites
the `model` field of the provider request with `grok-4` before dispatch, so
the dispatched body always carries model `grok-4`, whatever
`prepare_request` or the caller supplied. -/
theorem grokOpenAI_sendRequest_forces_grok4 (p : BaseProviderState)
    (req : List (String × JValue)) (stream : Bool) :
    (grok_openai_send_request p req stream).body =
      dictInsert req "model" (JValue.str "grok-4") ∧
    dictLookup (grok_openai_send_request p req stream).body "model" =
      some (JValue.str "grok-4") :=
  ⟨rfl, dictLookup_dictInsert_self req "model" (JValue.str "grok-4")⟩

/-! ## C4 -/

/-- C4: the messages route tries alias lookup first; an active matching
alias determines the routing (its provider and its kind), and only when no
active alias matches is the token treated as a literal provider name. -/
theorem aliasRoute_alias_precedence (rows : List AliasRow) (tok : String) :
    (∀ info, get_provider_by_alias rows tok = some info →
      alias_based_proxy_route rows tok =
        (info.provider_name, decide (info.alias_type = "custom"))) ∧
    (get_provider_by_alias rows tok = none →
      alias_based_proxy_route rows tok = (tok, pyInStr "custom" tok)) := by
  constructor
  · intro info h
    simp [alias_based_proxy_route, h]
  · intro h
    simp [alias_based_proxy_route, h]

/-- Witness for C4: with an active alias `fast` bound to provider `speedy`
in custom mode, the token `fast` routes to `speedy` (custom), regardless of
any provider literally named `fast`. -/
theorem aliasRoute_alias_precedence_witness :
    get_provider_by_alias [⟨"fast", true, "speedy", "custom"⟩] "fast" =
      some ⟨"fast", true, "speedy", "custom"⟩ ∧
    alias_based_proxy_route [⟨"fast", true, "speedy", "custom"⟩] "fast" =
      ("speedy", true) :=
  ⟨rfl,
    (aliasRoute_alias_precedence [⟨"fast", true, "speedy", "custom"⟩]
      "fast").1 ⟨"fast", true, "speedy", "custom"⟩ rfl⟩

/-! ## C7 -/

/-- C7: an upstream streaming response delivering finitely many non-empty
chunks and closing cleanly is relayed as exactly those chunks, unmodified
and in order, with nothing emitted after the last one. -/
theorem streamRelay_forwards_exactly
    (process : JValue → Except String JValue) (r : UpstreamResponse)
    (hclean : r.stream_err = none) (hne : ∀ c ∈ r.chunks, c ≠ []) :
    stream_relay_chunks r = r.chunks ∧
    (r.status_code = 200 →
      handle_response process r true =
        .streamRelay 200 r.content_type r.chunks) := by
  have hfilter : r.chunks.filter (fun c => ¬ c.isEmpty) = r.chunks := by
    rw [List.filter_eq_self]
    intro c hc
    simpa [List.isEmpty_iff] using hne c hc
  have hrelay : stream_relay_chunks r = r.chunks := by
    simp only [stream_relay_chunks, hclean, List.append_nil]
    exact hfilter
  refine ⟨hrelay, ?_⟩
  intro h200
  simp [handle_response, h200, hrelay]

/-- Witness for C7: a clean two-chunk upstream stream is forwarded as
exactly those two chunks. -/
theorem streamRelay_forwards_exactly_witness :
    stream_relay_chunks ⟨200, some "text/event-stream", [[1], [2, 3]], none⟩
      = [[1], [2, 3]] ∧
    handle_response (fun v => Except.ok v)
        ⟨200, some "text/event-stream", [[1], [2, 3]], none⟩ true =
      .streamRelay 200 (some "text/event-stream") [[1], [2, 3]] := by
  have h := streamRelay_forwards_exactly (fun v => Except.ok v)
    ⟨200, some "text/event-stream", [[1], [2, 3]], none⟩ rfl (by decide)
  exact ⟨h.1, h.2 rfl⟩

/-! ## C1 -/

/-- C1: on a provider whose stored mapping has keys, `get_model_mapping`
resolves in exactly three tiers, returning the first hit: (1) the exact
model string; (2) the lower-cased, separator-normalized string; (3) when
the normalized string contains a hyphen, the token before its first hyphen;
and nothing when no tier matches. -/
theorem getModelMapping_three_tier (kvs : List (String × JValue))
    (model_name : String) (hne : kvs ≠ []) :
    (∀ v, dictLookup kvs model_name = some v →
      get_model_mapping_in kvs model_name = some v) ∧
    (dictLookup kvs model_name = none →
      ∀ v, dictLookup kvs (normalize_model_name model_name) = some v →
        get_model_mapping_in kvs model_name = some v) ∧
    (dictLookup kvs model_name = none →
      dictLookup kvs (normalize_model_name model_name) = none →
      pyInStr "-" (normalize_model_name model_name) = true →
      get_model_mapping_in kvs model_name =
        dictLookup kvs (pySplitHead (normalize_model_name model_name) '-')) ∧
    (dictLookup kvs model_name = none →
      dictLookup kvs (normalize_model_name model_name) = none →
      (pyInStr "-" (normalize_model_name model_name) = false ∨
        dictLookup kvs (pySplitHead (normalize_model_name model_name) '-')
          = none) →
      get_model_mapping_in kvs model_name = none) := by
  have hempty : kvs.isEmpty = false := by
    cases kvs with
    | nil => exact absurd rfl hne
    | cons a l => rfl
  refine ⟨?_, ?_, ?_, ?_⟩
  · intro v hv
    simp [get_model_mapping_in, hempty, dictContains, hv]
  · intro h0 v hv
    simp [get_model_mapping_in, hempty, dictContains, h0, hv]
  · intro h0 h1 h2
    cases hs : dictLookup kvs (pySplitHead (normalize_model_name model_name)
        '-') with
    | none => simp [get_model_mapping_in, hempty, dictContains, h0, h1, h2, hs]
    | some v => simp [get_model_mapping_in, hempty, dictContains, h0, h1, h2,
        hs]
  · intro h0 h1 h2
    rcases h2 with h2 | h2
    · simp [get_model_mapping_in, hempty, dictContains, h0, h1, h2]
    · cases h3 : pyInStr "-" (normalize_model_name model_name) with
      | false => simp [get_model_mapping_in, hempty, dictContains, h0, h1, h3]
      | true => simp [get_model_mapping_in, hempty, dictContains, h0, h1, h2,
          h3]

/-- Witness for C1, on the mapping of the spec's worked example: the exact
name hits tier 1, the separator-variant hits tier 2, and an unlisted name
falls through every tier. -/
theorem getModelMapping_three_tier_witness :
    get_model_mapping_in
        [("claude-3-5-sonnet-20241022", JValue.str "vendor/model-x")]
        "claude-3-5-sonnet-20241022" = some (JValue.str "vendor/model-x") ∧
    get_model_mapping_in
        [("claude-3-5-sonnet-20241022", JValue.str "vendor/model-x")]
        "Claude_3_5_Sonnet-20241022" = some (JValue.str "vendor/model-x") ∧
    get_model_mapping_in
        [("claude-3-5-sonnet-20241022", JValue.str "vendor/model-x")]
        "claude-9-ultra" = none :=
  ⟨(getModelMapping_three_tier
      [("claude-3-5-sonnet-20241022", JValue.str "vendor/model-x")]
      "claude-3-5-sonnet-20241022" (List.cons_ne_nil _ _)).1
      (JValue.str "vendor/model-x") rfl,
   (getModelMapping_three_tier
      [("claude-3-5-sonnet-20241022", JValue.str "vendor/model-x")]
      "Claude_3_5_Sonnet-20241022" (List.cons_ne_nil _ _)).2.1 rfl
      (JValue.str "vendor/model-x") rfl,
   (getModelMapping_three_tier
      [("claude-3-5-sonnet-20241022", JValue.str "vendor/model-x")]
      "claude-9-ultra" (List.cons_ne_nil _ _)).2.2.2 rfl rfl (Or.inr rfl)⟩

/-! ## C6 -/

/-- C6 counterexample: an inbound call whose content type declares JSON but
whose body does not parse is answered with `INTERNAL_ERROR` and HTTP 500
(the parse failure raised by the body access is caught by the
orchestrator's own catch-all), not with `INVALID_REQUEST` and HTTP 400 as
the claim states. -/
theorem proxyRequest_malformed_json_counterexample :
    errorCodeStatus (proxy_request_early false false [] [] "openrouter" true
        (.error "Expecting value") (fun _ _ => .success JValue.null)).1 =
      some ("INTERNAL_ERROR", 500) ∧
    (some ("INTERNAL_ERROR", 500) : Option (String × Nat)) ≠
      some ("INVALID_REQUEST", 400) :=
  ⟨rfl, by decide⟩

/-- C6 (amended): when the rate gate does not fire, a call whose declared
content type is not JSON is answered `INVALID_REQUEST` / 400, and a call
with a JSON content type whose body fails to parse is answered
`INTERNAL_ERROR` / 500 through the orchestrator's catch-all; in both cases
provider resolution is never attempted. -/
theorem proxyRequest_parse_failures_before_resolution
    (enabled exceeded : Bool) (rows : List (List DBVal))
    (keys : List String) (pname : String) (body : Except String JValue)
    (rest : ParsedProviderConfig → List (String × JValue) →
      OrchestratorResult)
    (hrate : ¬ (enabled = true ∧ exceeded = true)) :
    proxy_request_early enabled exceeded rows keys pname false body rest =
      (.errorResponse "Request must be JSON" "INVALID_REQUEST" 400,
        false) ∧
    (∀ e, body = .error e →
      proxy_request_early enabled exceeded rows keys pname true body rest =
        (.errorResponse ("Internal server error: 400 Bad Request: " ++ e)
          "INTERNAL_ERROR" 500, false)) := by
  have hgate : (enabled && exceeded) = false := by
    cases enabled <;> cases exceeded <;> simp_all
  constructor
  · simp [proxy_request_early, hgate]
  · intro e he
    subst he
    simp [proxy_request_early, hgate]

/-- Witness for the amended C6, at a concrete environment and body. -/
theorem proxyRequest_parse_failures_before_resolution_witness :
    proxy_request_early false false [] [] "openrouter" false
        (.error "Expecting value") (fun _ _ => .success JValue.null) =
      (.errorResponse "Request must be JSON" "INVALID_REQUEST" 400,
        false) ∧
    proxy_request_early false false [] [] "openrouter" true
        (.error "Expecting value") (fun _ _ => .success JValue.null) =
      (.errorResponse
        "Internal server error: 400 Bad Request: Expecting value"
        "INTERNAL_ERROR" 500, false) := by
  have h := proxyRequest_parse_failures_before_resolution false false [] []
    "openrouter" (.error "Expecting value")
    (fun _ _ => .success JValue.null) (by simp)
  exact ⟨h.1, h.2 "Expecting value" rfl⟩

/-! ## C10 -/

/-- C10: a stored provider row whose model-mapping blob is absent (short
row or NULL cell) or is text that is not valid JSON parses to an empty
model mapping without raising, and consequently `get_model_mapping` answers
nothing for every requested model name on a provider whose parsed mapping
is empty. -/
theorem parseProviderRow_bad_mapping_blob (row : List DBVal)
    (hblob : row[11]? = none ∨ row[11]? = some DBVal.null ∨
      ∃ s e, row[11]? = some (DBVal.text s) ∧
        json_loads s = Except.error e) :
    parse_json_blob ((row[11]?).getD (DBVal.text "\x7b\x7d")) =
      .ok (JValue.obj []) ∧
    (∀ cfg, parse_provider_row row = .ok cfg →
      cfg.model_mapping = JValue.obj []) ∧
    (∀ (rows : List (List DBVal)) (keys : List String)
        (pname mname : String) (cfg : ParsedProviderConfig),
      get_provider_by_name rows keys pname = some cfg →
      cfg.model_mapping = JValue.obj [] →
      get_model_mapping rows keys pname mname = none) := by
  have hpart1 : parse_json_blob ((row[11]?).getD (DBVal.text "\x7b\x7d")) =
      .ok (JValue.obj []) := by
    rcases hblob with h | h | ⟨s, e, h, he⟩
    · rw [h]; rfl
    · rw [h]; rfl
    · rw [h]
      by_cases hs : s = ""
      · subst hs; rfl
      · simp [parse_json_blob, hs, he]
  refine ⟨hpart1, ?_, ?_⟩
  · intro cfg h
    unfold parse_provider_row at h
    simp only [bind, Except.bind, pure, Except.pure] at h
    rw [hpart1] at h
    repeat' split at h
    all_goals (try (cases h))
    all_goals simp_all
  · intro rows keys pname mname cfg hget hmm
    simp [get_model_mapping, hget, hmm, get_model_mapping_in]

/-- Witness for C10: a concrete row whose mapping blob is the invalid text
`not json` parses with an empty mapping, and the tiered lookup on that
provider answers nothing. -/
theorem parseProviderRow_bad_mapping_blob_witness :
    parse_provider_row
        [DBVal.int 1, DBVal.text "OpenRouter", DBVal.text "https://x",
         DBVal.text "k", DBVal.null, DBVal.text "bearer_token", DBVal.int 1,
         DBVal.null, DBVal.null, DBVal.text "openai",
         DBVal.text "\x7b\x7d", DBVal.text "not json"] =
      .ok ⟨DBVal.int 1, DBVal.text "OpenRouter", DBVal.text "https://x",
        DBVal.text "k", DBVal.null, DBVal.text "bearer_token", true,
        DBVal.null, DBVal.null, DBVal.text "openai", JValue.obj [],
        JValue.obj [], []⟩ ∧
    get_model_mapping
        [[DBVal.int 1, DBVal.text "OpenRouter", DBVal.text "https://x",
          DBVal.text "k", DBVal.null, DBVal.text "bearer_token",
          DBVal.int 1, DBVal.null, DBVal.null, DBVal.text "openai",
          DBVal.text "\x7b\x7d", DBVal.text "not json"]]
        repo_registry_keys "OpenRouter" "claude-3-5-sonnet-20241022" =
      none := by
  have h := parseProviderRow_bad_mapping_blob
    [DBVal.int 1, DBVal.text "OpenRouter", DBVal.text "https://x",
     DBVal.text "k", DBVal.null, DBVal.text "bearer_token", DBVal.int 1,
     DBVal.null, DBVal.null, DBVal.text "openai",
     DBVal.text "\x7b\x7d", DBVal.text "not json"]
    (Or.inr (Or.inr ⟨"not json", "Expecting value", rfl, rfl⟩))
  refine ⟨rfl, ?_⟩
  exact h.2.2
    [[DBVal.int 1, DBVal.text "OpenRouter", DBVal.text "https://x",
      DBVal.text "k", DBVal.null, DBVal.text "bearer_token", DBVal.int 1,
      DBVal.null, DBVal.null, DBVal.text "openai",
      DBVal.text "\x7b\x7d", DBVal.text "not json"]]
    repo_registry_keys "OpenRouter" "claude-3-5-sonnet-20241022"
    ⟨DBVal.int 1, DBVal.text "OpenRouter", DBVal.text "https://x",
      DBVal.text "k", DBVal.null, DBVal.text "bearer_token", true,
      DBVal.null, DBVal.null, DBVal.text "openai", JValue.obj [],
      JValue.obj [], []⟩ rfl rfl

/-! ## C3 -/

/-- Keys contributed by the `max_tokens` step. -/
theorem valdMaxTokens_keys (kvs l : List (String × JValue))
    (h : valdMaxTokens kvs = Except.ok l) :
    ∀ k ∈ l.map Prod.fst, k = "max_tokens" := by
  unfold valdMaxTokens at h
  repeat' split at h
  all_goals cases h
  all_goals simp

/-- Keys contributed by the `temperature` step. -/
theorem valdTemperature_keys (kvs l : List (String × JValue))
    (h : valdTemperature kvs = Except.ok l) :
    ∀ k ∈ l.map Prod.fst, k = "temperature" := by
  unfold valdTemperature at h
  repeat' split at h
  all_goals cases h
  all_goals simp

/-- Keys contributed by the `tools` step. -/
theorem valdTools_keys (kvs l : List (String × JValue))
    (h : valdTools kvs = Except.ok l) :
    ∀ k ∈ l.map Prod.fst, k = "tools" := by
  unfold valdTools at h
  repeat' split at h
  all_goals cases h
  all_goals simp

/-- Keys contributed by the `system` step. -/
theorem valdSystem_keys (kvs : List (String × JValue)) :
    ∀ k ∈ (valdSystem kvs).map Prod.fst, k = "system" := by
  unfold valdSystem
  split <;> simp

/-- Keys contributed by the `tool_choice` step. -/
theorem valdToolChoice_keys (kvs : List (String × JValue)) :
    ∀ k ∈ (valdToolChoice kvs).map Prod.fst, k = "tool_choice" := by
  unfold valdToolChoice
  split <;> simp

/-- C3: whatever the request body, the dictionary a successful
`validate_anthropic_request` returns carries only keys from the fixed
seven-key set — in particular never `stream` — so the orchestrator's
`data.get` for the streaming flag always reads `False` and every upstream
dispatch is non-streaming, even when the caller set `stream` to true. -/
theorem validateAnthropicRequest_never_streams (request_data : JValue)
    (out : List (String × JValue))
    (h : validate_anthropic_request request_data = .ok out) :
    (∀ k ∈ out.map Prod.fst,
      k ∈ (["model", "messages", "max_tokens", "temperature", "system",
        "tools", "tool_choice"] : List String)) ∧
    dictLookup out "stream" = none ∧
    orchestrator_stream_flag out = JValue.bool false ∧
    jTruthy (orchestrator_stream_flag out) = false := by
  have hkeys : ∀ k ∈ out.map Prod.fst,
      k ∈ (["model", "messages", "max_tokens", "temperature", "system",
        "tools", "tool_choice"] : List String) := by
    unfold validate_anthropic_request at h
    simp only [bind, Except.bind, pure, Except.pure] at h
    cases request_data with
    | null => simp at h
    | bool b => simp at h
    | num n k2 => simp at h
    | str s => simp at h
    | arr xs => simp at h
    | obj kvs =>
      cases hm : dictLookup kvs "model" with
      | none => simp [hm] at h
      | some modelV =>
        simp only [hm] at h
        cases hvs : validate_string modelV "Model" 1 (some 100) true with
        | error e => simp [hvs] at h
        | ok model =>
          simp only [hvs] at h
          cases hms : dictLookup kvs "messages" with
          | none => simp [hms] at h
          | some msgsV =>
            simp only [hms] at h
            cases msgsV with
            | null => simp at h
            | bool b => simp at h
            | num n k2 => simp at h
            | str s => simp at h
            | obj o => simp at h
            | arr msgs =>
              cases hmt : valdMaxTokens kvs with
              | error e => simp [hmt] at h
              | ok mt =>
                simp only [hmt] at h
                cases htp : valdTemperature kvs with
                | error e => simp [htp] at h
                | ok tp =>
                  simp only [htp] at h
                  cases htl : valdTools kvs with
                  | error e => simp [htl] at h
                  | ok tl =>
                    simp only [htl] at h
                    injection h with h2
                    subst h2
                    have kmt := valdMaxTokens_keys kvs mt hmt
                    have ktp := valdTemperature_keys kvs tp htp
                    have ktl := valdTools_keys kvs tl htl
                    have ksys := valdSystem_keys kvs
                    have ktc := valdToolChoice_keys kvs
                    intro k hk
                    simp only [List.map_append, List.mem_append] at hk
                    rcases hk with ((((hk | hk) | hk) | hk) | hk) | hk
                    · simp only [List.map_cons, List.map_nil,
                        List.mem_cons, List.mem_singleton] at hk
                      rcases hk with hk | hk | hk
                      · subst hk; simp
                      · subst hk; simp
                      · exact absurd hk (by simp)
                    · have := kmt k hk; subst this; simp
                    · have := ktp k hk; subst this; simp
                    · have := ksys k hk; subst this; simp
                    · have := ktl k hk; subst this; simp
                    · have := ktc k hk; subst this; simp
  have hstream : dictLookup out "stream" = none := by
    refine dictLookup_eq_none_of_forall out "stream" (fun k hk => ?_)
    have hmem := hkeys k hk
    intro hcontra
    subst hcontra
    simp at hmem
  refine ⟨hkeys, hstream, ?_, ?_⟩
  · simp [orchestrator_stream_flag, hstream]
  · simp [orchestrator_stream_flag, hstream, jTruthy]

/-- Witness for C3: a concrete body that sets `stream: true` validates to a
dictionary without the `stream` key, whose streaming flag reads false. -/
theorem validateAnthropicRequest_never_streams_witness :
    validate_anthropic_request (JValue.obj
        [("model", JValue.str "m"), ("messages", JValue.arr []),
         ("stream", JValue.bool true)]) =
      .ok [("model", JValue.str "m"), ("messages", JValue.arr [])] ∧
    dictLookup [("model", JValue.str "m"), ("messages", JValue.arr [])]
      "stream" = (none : Option JValue) ∧
    orchestrator_stream_flag
      [("model", JValue.str "m"), ("messages", JValue.arr [])] =
      JValue.bool false := by
  have h := validateAnthropicRequest_never_streams (JValue.obj
      [("model", JValue.str "m"), ("messages", JValue.arr []),
       ("stream", JValue.bool true)])
    [("model", JValue.str "m"), ("messages", JValue.arr [])] rfl
  exact ⟨rfl, h.2.1, h.2.2.1⟩
